import Mathlib

/-!
Shallow embedding of `src/src/lorenztelegram/configBlocks.py`.

The dominating defect of the source is unbounded recursion in the
attribute protocol: `ConfigBlock.__getattribute__` evaluates
`self._PARAMETERS` on its first line (line 44), and in Python every
dotted attribute read on an instance dispatches through the class
`__getattribute__`, including reads inside `__getattribute__` itself —
so the method re-enters itself without a base case and every instance
attribute read raises `RecursionError` at the interpreter limit.
`ConfigBlock.__setattr__` starts with the read `self._READONLY`
(line 69) and fails the same way, so every attribute write — including
the `self.payload = payload` assignment inside the constructor — also
raises `RecursionError`.

The embedding models this with an explicit recursion budget: the `Nat`
argument of `getattribute`, `pySetattr` and the functions built on them
is the remaining interpreter recursion depth (CPython defaults to about
1000); the theorems quantify over every budget, so no conclusion
depends on the exact limit.  The code past each failing read is
transcribed line by line in the (provably unreachable) continuation
branches, so the further defects of the source — the off-by-one slice
of line 47, the malformed packet of line 95, the wrong-dictionary guard
of line 79, the never-matching sequence pattern of line 252, and the
would-be in-place schema mutation of lines 12-18 — remain visible in
the model even though no execution reaches them.

Python values that occur in this module are integers, strings and
`None`; true division would produce a float, modeled exactly as a
rational number.
-/

namespace LorenzTelegram

/-- Python values appearing as field values in this module. -/
inductive PyVal where
  | pyNone : PyVal
  | pyInt : Nat → PyVal
  | pyStr : String → PyVal
  | pyFloat : ℚ → PyVal
deriving DecidableEq, Repr

/-- Python exceptions relevant to the code paths modeled here.
`RecursionError` is raised when the interpreter recursion limit is
exhausted.  `ReadOnlyBlock` stands for the `AttributeError` that line
70 would raise with the message "... is read only" (the error kind the
spec names `ReadOnlyBlock`); `AttributeError` is the generic
missing-attribute error of default attribute lookup. -/
inductive PyErr where
  | RecursionError : PyErr
  | ReadOnlyBlock : PyErr
  | AttributeError : PyErr
  | KeyError : PyErr
  | TypeError : PyErr
  | ValueError : PyErr
  | IndexError : PyErr
deriving DecidableEq, Repr

/-- One entry of a `_PARAMETERS` dictionary: `offset`, `size`, and the
optional `LUT` sub-dictionary (an ordered association list of raw
integer code to semantic value, mirroring insertion order of the Python
dict literal). -/
structure FieldDesc where
  offset : Nat
  size : Nat
  lut : Option (List (Nat × PyVal)) := none
deriving DecidableEq, Repr

/-- A `_PARAMETERS` dictionary: insertion-ordered mapping from field
name to descriptor, as a Python dict preserves insertion order. -/
abbrev Schema : Type := List (String × FieldDesc)

/-- Dictionary lookup `params[name]` returning `none` for a missing key. -/
def lookupSchema (s : Schema) (name : String) : Option FieldDesc :=
  match s.find? (fun p => p.1 == name) with
  | some p => some p.2
  | none => none

/-- Dictionary item assignment `d[k] = v` with Python dict semantics: an
existing key keeps its position and gets the new value, a new key is
appended at the end. -/
def dictSet (s : Schema) (k : String) (d : FieldDesc) : Schema :=
  if s.any (fun p => p.1 == k) then
    s.map (fun p => if p.1 == k then (k, d) else p)
  else
    s ++ [(k, d)]

/-- Forward lookup-table access `LUT[res]` returning `none` when the
raw code has no entry (Python raises `KeyError`, which the caller
catches). -/
def lutGet (lut : List (Nat × PyVal)) (k : Nat) : Option PyVal :=
  match lut.find? (fun p => p.1 == k) with
  | some p => some p.2
  | none => none

/-- Python slice `xs[a:b]` on a list: clamped, never failing. -/
def pySlice (xs : List Nat) (a b : Nat) : List Nat :=
  (xs.drop a).take (b - a)

/-- The byte-accumulation loop of `__getattribute__` lines 50-53:
`res = res << 8; res += itm` over the sliced bytes, a big-endian
interpretation. -/
def beInt (bs : List Nat) : Nat :=
  bs.foldl (fun r b => (r <<< 8) + b) 0

/-- Lines 55-64 of `__getattribute__`: when the descriptor carries a
`LUT`, look the integer up and fall back to the raw integer on
`KeyError`; otherwise return the raw integer. -/
def lutApply (olut : Option (List (Nat × PyVal))) (res : Nat) : PyVal :=
  match olut with
  | none => PyVal.pyInt res
  | some lut =>
      match lutGet lut res with
      | some v => v
      | none => PyVal.pyInt res

/-- Python list item assignment `xs[i] = v`, raising `IndexError` when
the index is out of range. -/
def pySetItem (xs : List Nat) (i : Nat) (v : Nat) : Except PyErr (List Nat) :=
  if i < xs.length then Except.ok (xs.set i v) else Except.error PyErr.IndexError

/-- The while loop of `__setattr__` lines 87-90: starting at
`size = descriptor size - 1` and counting down to 0, store
`value & 0xFF` at `payload[offset + size]` and shift `value` right by
8.  The fuel argument is the number of remaining iterations. -/
def writeBytes (payload : List Nat) (offset : Nat) (v : Nat) : Nat → Except PyErr (List Nat)
  | 0 => Except.ok payload
  | Nat.succ k =>
      match pySetItem payload (offset + k) (v &&& 0xFF) with
      | Except.ok p2 => writeBytes p2 offset (v >>> 8) k
      | Except.error e => Except.error e

/-- Conversion `int.to_bytes(2)`: two big-endian bytes; every value
passed to it here has been masked with `0xFFFF` and so fits. -/
def toBytes2 (v : Nat) : List Nat :=
  [v / 256, v % 256]

/-- The loop body of `calc_checksums` lines 34-39: add the byte into
`checksum`, mask to 16 bits, add the new `checksum` into `wchecksum`,
mask to 16 bits. -/
def checksumStep (cw : Nat × Nat) (b : Nat) : Nat × Nat :=
  ((cw.1 + b) &&& 0xFFFF, (cw.2 + ((cw.1 + b) &&& 0xFFFF)) &&& 0xFFFF)

/-- Lines 31-41 of `calc_checksums`: the accumulator loop over the id
byte followed by the payload bytes, starting from `(0, 0)`, and the
final `to_bytes(2)` rendering — the computation the method would
perform on the values that the failing reads of line 30 were meant to
supply. -/
def checksumLoop (i : Nat) (payload : List Nat) : List Nat × List Nat :=
  let acc := (i :: payload).foldl checksumStep (0, 0)
  (toBytes2 acc.1, toBytes2 acc.2)

/-- The accumulator update exactly as the specification words it:
`checksum = (checksum + b) mod 65536` then
`weighted = (weighted + checksum) mod 65536`. -/
def specStep (cw : Nat × Nat) (b : Nat) : Nat × Nat :=
  ((cw.1 + b) % 65536, (cw.2 + ((cw.1 + b) % 65536)) % 65536)

/-- The accumulator pair as the specification describes it: fold
`specStep` over the id byte followed by the payload, from `(0, 0)`. -/
def specChecksums (i : Nat) (payload : List Nat) : Nat × Nat :=
  (i :: payload).foldl specStep (0, 0)

/-- An element of the `packet` list built by `serialize` line 95: the
list literal `[self._ID, self.payload]` holds an integer and a whole
list. -/
inductive PyObj where
  | int : Nat → PyObj
  | list : List Nat → PyObj
deriving DecidableEq, Repr

/-- Python `bytes(packet)` over a list: each element must be an integer
in `0..255` (`ValueError` otherwise); a non-integer element such as a
list raises `TypeError`. -/
def pyBytes : List PyObj → Except PyErr (List Nat)
  | [] => Except.ok []
  | PyObj.int n :: rest =>
      if n < 256 then
        match pyBytes rest with
        | Except.ok bs => Except.ok (n :: bs)
        | Except.error e => Except.error e
      else Except.error PyErr.ValueError
  | PyObj.list _ :: _ => Except.error PyErr.TypeError

/-- The item assignments that lines 12-18 of `ConfigBlock.__init__`
would perform on the class-level dictionary if they were ever reached:
insert `checksum`, `wchecksum` and `id`, then compute `reserved_n` from
the then-last entry.  In the program these lines are unreachable (line
10 raises first), and each would itself raise on its
`self._PARAMETERS` read before assigning. -/
def initParams (params : Schema) : Schema :=
  let p1 := dictSet params "checksum" (FieldDesc.mk 28 2 none)
  let p2 := dictSet p1 "wchecksum" (FieldDesc.mk 30 2 none)
  let p3 := dictSet p2 "id" (FieldDesc.mk 0 1 none)
  match p3.getLast? with
  | some lastp =>
      dictSet p3 "reserved_n" (FieldDesc.mk (lastp.2.offset + lastp.2.size)
        (28 - (lastp.2.offset + lastp.2.size)) none)
  | none => p3

/-- The payload a block would be constructed with when no argument is
given: the default argument `[0 for _ in range(27)]` of line 9, a
27-element zero list. -/
def defaultPayload : List Nat :=
  List.replicate 27 0

/-- The `pulse_pr_rev` lookup table of `STATOR_HARDWARE` (lines
120-137), in definition order. -/
def PULSE_PR_REV_LUT : List (Nat × PyVal) :=
  [(0x00, PyVal.pyNone), (0x01, PyVal.pyInt 6), (0x02, PyVal.pyInt 30),
   (0x03, PyVal.pyInt 60), (0x04, PyVal.pyInt 90), (0x05, PyVal.pyInt 120),
   (0x06, PyVal.pyInt 180), (0x07, PyVal.pyInt 360), (0x08, PyVal.pyInt 720),
   (0x09, PyVal.pyInt 1440), (0x10, PyVal.pyInt 100), (0x11, PyVal.pyInt 200),
   (0x12, PyVal.pyInt 400), (0x13, PyVal.pyInt 500), (0x14, PyVal.pyInt 1000),
   (0xFF, PyVal.pyNone)]

/-- The `baudrate` lookup table of `STATOR_OPERATION` (lines 155-160). -/
def BAUDRATE_LUT : List (Nat × PyVal) :=
  [(0x00, PyVal.pyNone), (0x09, PyVal.pyInt 115200),
   (0x10, PyVal.pyInt 230400), (0xFF, PyVal.pyNone)]

/-- The `output_A` and `output_B` lookup table of `STATOR_OPERATION`
(lines 162-183). -/
def OUTPUT_LUT : List (Nat × PyVal) :=
  [(0x00, PyVal.pyNone), (0x01, PyVal.pyStr "A"), (0x02, PyVal.pyStr "B"),
   (0x03, PyVal.pyStr "SPEED"), (0x04, PyVal.pyStr "ANGLE"),
   (0x05, PyVal.pyStr "FORCE"), (0x06, PyVal.pyStr "POWER"),
   (0xFF, PyVal.pyNone)]

/-- The `software_id` lookup table of `STATOR_SOFTWARE_CONFIG`
(lines 196-202). -/
def SOFTWARE_ID_LUT : List (Nat × PyVal) :=
  [(0x00, PyVal.pyNone), (0x01, PyVal.pyStr "LCV-USB-VS2"),
   (0x02, PyVal.pyStr "DR-USB-VS"), (0xFF, PyVal.pyNone)]

/-- Dictionary `STATOR_HEADER._PARAMETERS` as defined at class level
(lines 102-107). -/
def STATOR_HEADER_PARAMS : Schema :=
  [("type", FieldDesc.mk 1 3 none), ("serial", FieldDesc.mk 4 4 none),
   ("si_idx", FieldDesc.mk 8 1 none), ("active_port_count", FieldDesc.mk 9 1 none)]

/-- Dictionary `STATOR_HARDWARE._PARAMETERS` as defined at class level
(lines 116-139). -/
def STATOR_HARDWARE_PARAMS : Schema :=
  [("production_time", FieldDesc.mk 1 4 none), ("STAS", FieldDesc.mk 5 5 none),
   ("OEM", FieldDesc.mk 10 1 none),
   ("pulse_pr_rev", FieldDesc.mk 11 1 (some PULSE_PR_REV_LUT))]

/-- Dictionary `STATOR_OPERATION._PARAMETERS` as defined at class level
(lines 148-186). -/
def STATOR_OPERATION_PARAMS : Schema :=
  [("modification_time", FieldDesc.mk 1 4 none), ("reserved_0", FieldDesc.mk 5 1 none),
   ("wakeup_flag", FieldDesc.mk 6 1 none), ("bus_address", FieldDesc.mk 7 1 none),
   ("reserved_1", FieldDesc.mk 8 1 none), ("op_flags", FieldDesc.mk 9 1 none),
   ("baudrate", FieldDesc.mk 10 1 (some BAUDRATE_LUT)),
   ("output_A", FieldDesc.mk 11 1 (some OUTPUT_LUT)),
   ("output_B", FieldDesc.mk 12 1 (some OUTPUT_LUT)),
   ("lp_filter_A", FieldDesc.mk 13 2 none), ("lp_filter_B", FieldDesc.mk 15 2 none)]

/-- Dictionary `STATOR_SOFTWARE_CONFIG._PARAMETERS` (lines 195-204). -/
def STATOR_SOFTWARE_CONFIG_PARAMS : Schema :=
  [("software_id", FieldDesc.mk 1 1 (some SOFTWARE_ID_LUT)),
   ("software_config", FieldDesc.mk 2 26 none)]

/-- Dictionary `ROTOR_HEADER._PARAMETERS` (lines 213-223). -/
def ROTOR_HEADER_PARAMS : Schema :=
  [("type", FieldDesc.mk 1 3 none), ("serial", FieldDesc.mk 4 4 none),
   ("dimension", FieldDesc.mk 8 1 none), ("type_A", FieldDesc.mk 9 1 none),
   ("load_A", FieldDesc.mk 10 2 none), ("accuracy_A", FieldDesc.mk 12 1 none),
   ("type_B", FieldDesc.mk 13 1 none), ("load_B", FieldDesc.mk 14 2 none),
   ("accuracy_B", FieldDesc.mk 16 1 none)]

/-- Dictionary `ROTOR_FACTORY_CALIBRATION._PARAMETERS` (lines 232-244);
inherited unchanged — the same dictionary object — by
`ROTOR_USER_CALIBRATION`. -/
def ROTOR_FACTORY_CALIBRATION_PARAMS : Schema :=
  [("calibration_time", FieldDesc.mk 1 4 none), ("gain_A", FieldDesc.mk 5 2 none),
   ("offset_A", FieldDesc.mk 7 2 none), ("gain_B", FieldDesc.mk 9 2 none),
   ("offset_B", FieldDesc.mk 11 2 none), ("cal_gain_A", FieldDesc.mk 13 2 none),
   ("cal_gain_B", FieldDesc.mk 15 2 none), ("nom_adap_fact_A", FieldDesc.mk 17 2 none),
   ("nom_adap_fact_B", FieldDesc.mk 19 2 none), ("uncertainty_A", FieldDesc.mk 21 2 none),
   ("uncertainty_B", FieldDesc.mk 23 2 none)]

/-- Dictionary `ROTOR_OPERATION._PARAMETERS` (lines 268-273). -/
def ROTOR_OPERATION_PARAMS : Schema :=
  [("calibration_time", FieldDesc.mk 1 4 none), ("reserved_0", FieldDesc.mk 5 1 none),
   ("radio_channel", FieldDesc.mk 8 1 none), ("sensor_serials", FieldDesc.mk 17 9 none)]

/-- The eight concrete block classes. -/
inductive Variant where
  | STATOR_HEADER | STATOR_HARDWARE | STATOR_OPERATION | STATOR_SOFTWARE_CONFIG
  | ROTOR_HEADER | ROTOR_FACTORY_CALIBRATION | ROTOR_USER_CALIBRATION | ROTOR_OPERATION
deriving DecidableEq, Repr

/-- The `_ID` class attribute of each variant. -/
def variantId : Variant → Nat
  | Variant.STATOR_HEADER => 0x10
  | Variant.STATOR_HARDWARE => 0x12
  | Variant.STATOR_OPERATION => 0x13
  | Variant.STATOR_SOFTWARE_CONFIG => 0x14
  | Variant.ROTOR_HEADER => 0x40
  | Variant.ROTOR_FACTORY_CALIBRATION => 0x41
  | Variant.ROTOR_USER_CALIBRATION => 0x42
  | Variant.ROTOR_OPERATION => 0x43

/-- The `_READONLY` class attribute of each variant. -/
def variantReadonly : Variant → Bool
  | Variant.STATOR_HEADER => true
  | Variant.STATOR_HARDWARE => true
  | Variant.STATOR_OPERATION => false
  | Variant.STATOR_SOFTWARE_CONFIG => false
  | Variant.ROTOR_HEADER => true
  | Variant.ROTOR_FACTORY_CALIBRATION => true
  | Variant.ROTOR_USER_CALIBRATION => false
  | Variant.ROTOR_OPERATION => false

/-- The class-level `_PARAMETERS` dictionary of each variant;
`ROTOR_USER_CALIBRATION` inherits the dictionary of
`ROTOR_FACTORY_CALIBRATION`. -/
def variantParams : Variant → Schema
  | Variant.STATOR_HEADER => STATOR_HEADER_PARAMS
  | Variant.STATOR_HARDWARE => STATOR_HARDWARE_PARAMS
  | Variant.STATOR_OPERATION => STATOR_OPERATION_PARAMS
  | Variant.STATOR_SOFTWARE_CONFIG => STATOR_SOFTWARE_CONFIG_PARAMS
  | Variant.ROTOR_HEADER => ROTOR_HEADER_PARAMS
  | Variant.ROTOR_FACTORY_CALIBRATION => ROTOR_FACTORY_CALIBRATION_PARAMS
  | Variant.ROTOR_USER_CALIBRATION => ROTOR_FACTORY_CALIBRATION_PARAMS
  | Variant.ROTOR_OPERATION => ROTOR_OPERATION_PARAMS

/-- The class-level attributes a `ConfigBlock` subclass carries:
`_PARAMETERS`, `_READONLY` and `_ID`. -/
structure PyClass where
  params : Schema
  readonly : Bool
  idByte : Nat
deriving DecidableEq, Repr

/-- The class data of each of the eight concrete variants. -/
def variantClass (v : Variant) : PyClass :=
  PyClass.mk (variantParams v) (variantReadonly v) (variantId v)

/-- An attribute value as seen by the attribute protocol: a field
value, the payload buffer list, the `_PARAMETERS` dictionary, the
`_READONLY` flag, or a method (represented by its name).  The instance
dictionary is modeled as `Option (List Nat)`: the only instance
attribute the code would ever store is `payload`, and in the actual
program it is never stored because every constructor raises. -/
inductive PyAttr where
  | val : PyVal → PyAttr
  | buf : List Nat → PyAttr
  | dict : Schema → PyAttr
  | boolv : Bool → PyAttr
  | meth : String → PyAttr
deriving DecidableEq, Repr

/-- Default attribute lookup, `object.__getattribute__` — the
`super().__getattribute__(name)` fallback of line 66.  Unreachable in
the program: line 44 raises before the fallback can run. -/
def objectGetattr (cls : PyClass) (inst : Option (List Nat)) (name : String) :
    Except PyErr PyAttr :=
  if name == "payload" then
    match inst with
    | some b => Except.ok (PyAttr.buf b)
    | none => Except.error PyErr.AttributeError
  else if name == "_PARAMETERS" then Except.ok (PyAttr.dict cls.params)
  else if name == "_READONLY" then Except.ok (PyAttr.boolv cls.readonly)
  else if name == "_ID" then Except.ok (PyAttr.val (PyVal.pyInt cls.idByte))
  else if name == "calc_checksums" || name == "serialize" then
    Except.ok (PyAttr.meth name)
  else Except.error PyErr.AttributeError

/-- Method `ConfigBlock.__getattribute__` (lines 43-66).  The first
argument is the remaining interpreter recursion depth; entering the
method consumes one frame, and every dotted `self.` read in its body
dispatches back through this same method.  Line 44 reads
`self._PARAMETERS` before the membership test can run, so the method
re-enters itself unconditionally and, for every budget, exhausts it and
raises `RecursionError` (proved below as `getattribute_diverges`).  The
continuation branches transcribe the rest of the body — the further
`self._PARAMETERS` subscripts of lines 45-46 and 57-58 (coalesced into
one read since the descriptor is then in hand), the `self.payload`
slice of line 47 with its off-by-one bound `1 + offset + size`, the
byte loop, the `LUT` fallback, and the line 66 fallback — but are
provably unreachable. -/
def getattribute : Nat → PyClass → Option (List Nat) → String → Except PyErr PyAttr
  | 0, _, _, _ => Except.error PyErr.RecursionError
  | Nat.succ fuel, cls, inst, name =>
      match getattribute fuel cls inst "_PARAMETERS" with
      | Except.error e => Except.error e
      | Except.ok (PyAttr.dict params) =>
          match lookupSchema params name with
          | some _ =>
              match getattribute fuel cls inst "_PARAMETERS" with
              | Except.error e => Except.error e
              | Except.ok (PyAttr.dict params2) =>
                  match lookupSchema params2 name with
                  | some d =>
                      match getattribute fuel cls inst "payload" with
                      | Except.error e => Except.error e
                      | Except.ok (PyAttr.buf payload) =>
                          Except.ok (PyAttr.val (lutApply d.lut
                            (beInt (pySlice payload d.offset (1 + d.offset + d.size)))))
                      | Except.ok _ => Except.error PyErr.TypeError
                  | none => Except.error PyErr.KeyError
              | Except.ok _ => Except.error PyErr.TypeError
          | none => objectGetattr cls inst name
      | Except.ok _ => Except.error PyErr.TypeError

/-- Method `ConfigBlock.__setattr__` (lines 68-91).  Its first
statement, line 69, reads `self._READONLY`, which dispatches through
`__getattribute__` and raises `RecursionError` for every budget — so
the read-only raise of line 70, the line 79 guard, and the packing loop
are all unreachable.  The continuation transcribes them: line 79 reads
`if "LUT" in self._PARAMETERS[name]["LUT"]:` (quotes as in the source),
so a descriptor without a `LUT` key raises `KeyError` on the subscript,
and with a `LUT` present the test asks whether the string is among the
integer keys, which is always false, making the reverse lookup of lines
80-85 dead even here; the raw value then reaches the packing loop,
where `value & 0xFF` on a non-integer raises `TypeError`.  Line 91
would store a plain instance attribute; only a store to `payload`
changes the modeled instance state. -/
def pySetattr : Nat → PyClass → Option (List Nat) → String → PyAttr →
    Except PyErr (Option (List Nat))
  | 0, _, _, _, _ => Except.error PyErr.RecursionError
  | Nat.succ fuel, cls, inst, name, value =>
      match getattribute fuel cls inst "_READONLY" with
      | Except.error e => Except.error e
      | Except.ok (PyAttr.boolv true) => Except.error PyErr.ReadOnlyBlock
      | Except.ok (PyAttr.boolv false) =>
          match getattribute fuel cls inst "_PARAMETERS" with
          | Except.error e => Except.error e
          | Except.ok (PyAttr.dict params) =>
              match lookupSchema params name with
              | some d =>
                  match d.lut with
                  | none => Except.error PyErr.KeyError
                  | some _ =>
                      match getattribute fuel cls inst "payload" with
                      | Except.error e => Except.error e
                      | Except.ok (PyAttr.buf payload) =>
                          match value with
                          | PyAttr.val (PyVal.pyInt n) =>
                              match writeBytes payload d.offset n d.size with
                              | Except.ok p2 => Except.ok (some p2)
                              | Except.error e => Except.error e
                          | _ => Except.error PyErr.TypeError
                      | Except.ok _ => Except.error PyErr.TypeError
              | none =>
                  match name, value with
                  | "payload", PyAttr.buf b => Except.ok (some b)
                  | _, _ => Except.ok inst
          | Except.ok _ => Except.error PyErr.TypeError
      | Except.ok _ => Except.error PyErr.TypeError

/-- Method `ConfigBlock.calc_checksums` (lines 20-41).  Line 30 builds
`data = [self._ID] + self.payload`; the dotted read of `self._ID`
dispatches through `__getattribute__` and raises `RecursionError` for
every budget, so the accumulator loop is never reached and the method
never returns the pair its docstring promises.  The unreachable
continuation runs `checksumLoop`, the transcription of lines 31-41. -/
def calcChecksumsFuel : Nat → PyClass → Option (List Nat) → Except PyErr (List Nat × List Nat)
  | 0, _, _ => Except.error PyErr.RecursionError
  | Nat.succ fuel, cls, inst =>
      match getattribute fuel cls inst "_ID" with
      | Except.error e => Except.error e
      | Except.ok _ =>
          match getattribute fuel cls inst "payload" with
          | Except.error e => Except.error e
          | Except.ok (PyAttr.buf payload) => Except.ok (checksumLoop cls.idByte payload)
          | Except.ok _ => Except.error PyErr.TypeError

/-- Method `ConfigBlock.serialize` (lines 93-96).  Line 94 fetches
`self.calc_checksums` — a dotted read dispatched through
`__getattribute__`, which raises `RecursionError` for every budget.
The unreachable continuation transcribes the rest: the call, the
line 95 packet `[self._ID, self.payload]` whose second element is the
whole payload list (so `bytes(packet)` would raise `TypeError`), and
the concatenation with the checksum bytes. -/
def serializeFuel : Nat → PyClass → Option (List Nat) → Except PyErr (List Nat)
  | 0, _, _ => Except.error PyErr.RecursionError
  | Nat.succ fuel, cls, inst =>
      match getattribute fuel cls inst "calc_checksums" with
      | Except.error e => Except.error e
      | Except.ok _ =>
          match calcChecksumsFuel fuel cls inst with
          | Except.error e => Except.error e
          | Except.ok cs =>
              match getattribute fuel cls inst "payload" with
              | Except.error e => Except.error e
              | Except.ok (PyAttr.buf payload) =>
                  match pyBytes [PyObj.int cls.idByte, PyObj.list payload] with
                  | Except.ok b => Except.ok (b ++ cs.1 ++ cs.2)
                  | Except.error e => Except.error e
              | Except.ok _ => Except.error PyErr.TypeError

/-- The case arm of `ROTOR_FACTORY_CALIBRATION.__getattribute__` line
252 is the sequence pattern `case [uncertainty_A, uncertainty_B]` (each
alternative a quoted string literal in the source), a two-element list
pattern; Python structural pattern matching (PEP 634) excludes `str`
subjects from sequence patterns, so for the attribute-name string this
arm could never be taken even if the method body were reached. -/
def uncertaintyArmMatches (_name : String) : Bool := false

/-- Scaling the case arm would perform if it were ever taken:
`value = value/10000`, Python true division, exact as a rational. -/
def scaleUncertainty : PyVal → PyVal
  | PyVal.pyInt n => PyVal.pyFloat ((n : ℚ) / 10000)
  | v => v

/-- Application of a value transformation to an attribute result. -/
def mapAttr (f : PyVal → PyVal) : PyAttr → PyAttr
  | PyAttr.val v => PyAttr.val (f v)
  | a => a

/-- Method `ROTOR_FACTORY_CALIBRATION.__getattribute__` (lines 249-254,
inherited by `ROTOR_USER_CALIBRATION`).  Line 250 calls
`super().__getattribute__(name)`, entering the base-class method, whose
own dotted `self.` reads dispatch through the (re-entering) attribute
protocol and raise `RecursionError` for every budget; the match arm and
its division are unreachable (and the arm would never match a string
subject anyway, see `uncertaintyArmMatches`). -/
def rfcGetattribute : Nat → PyClass → Option (List Nat) → String → Except PyErr PyAttr
  | 0, _, _, _ => Except.error PyErr.RecursionError
  | Nat.succ fuel, cls, inst, name =>
      match getattribute fuel cls inst name with
      | Except.error e => Except.error e
      | Except.ok v =>
          if uncertaintyArmMatches name then Except.ok (mapAttr scaleUncertainty v)
          else Except.ok v

/-- Constructor `ConfigBlock.__init__` (lines 9-18).  Line 10 runs
`self.payload = payload`, dispatched through `__setattr__`, which
raises `RecursionError` for every budget and every variant, mutable or
read-only.  The result pairs the outcome with the final state of the
class-level `_PARAMETERS` dictionary: the item assignments of lines
12-18 (transcribed by `initParams`) sit in the unreachable
continuation, behind one more `self._PARAMETERS` read that would itself
raise, so the class dictionary always comes back unchanged. -/
def configBlockInitFuel : Nat → PyClass → List Nat →
    Except PyErr (Option (List Nat)) × Schema
  | 0, cls, _ => (Except.error PyErr.RecursionError, cls.params)
  | Nat.succ fuel, cls, payload =>
      match pySetattr fuel cls none "payload" (PyAttr.buf payload) with
      | Except.error e => (Except.error e, cls.params)
      | Except.ok inst2 =>
          match getattribute fuel cls inst2 "_PARAMETERS" with
          | Except.error e => (Except.error e, cls.params)
          | Except.ok _ => (Except.ok inst2, initParams cls.params)

/-- Constructor `Config.__init__` (lines 279-288): construct the eight
variants in source order, `stator_hardware` first, stopping at the
first raise.  The shared class dictionaries need no threading across
the sequence because every construction raises before mutating its
dictionary (see `claim_C10`). -/
def configInitFuel (fuel : Nat) : Except PyErr Unit :=
  [Variant.STATOR_HARDWARE, Variant.STATOR_HEADER, Variant.STATOR_OPERATION,
   Variant.STATOR_SOFTWARE_CONFIG, Variant.ROTOR_HEADER,
   Variant.ROTOR_FACTORY_CALIBRATION, Variant.ROTOR_USER_CALIBRATION,
   Variant.ROTOR_OPERATION].foldl
    (fun acc v =>
      match acc with
      | Except.error e => Except.error e
      | Except.ok _ =>
          match (configBlockInitFuel fuel (variantClass v) defaultPayload).1 with
          | Except.error e => Except.error e
          | Except.ok _ => Except.ok ())
    (Except.ok ())

/-! Theorems. -/

/-- Masking with `0xFFFF` is reduction modulo `2 ^ 16`. -/
theorem and_mask_eq_mod (x : Nat) : x &&& 0xFFFF = x % 65536 := by
  have h := Nat.and_pow_two_sub_one_eq_mod x 16
  simpa using h

/-- The loop body of `calc_checksums` is exactly the update rule the
specification states. -/
theorem checksumStep_eq_specStep : checksumStep = specStep := by
  funext cw b
  simp only [checksumStep, specStep, and_mask_eq_mod]

/-- Every instance attribute read raises `RecursionError`, for every
recursion budget, class, instance state and name: line 44 reads
`self._PARAMETERS` through the method itself before anything else can
happen. -/
theorem getattribute_diverges (fuel : Nat) :
    ∀ (cls : PyClass) (inst : Option (List Nat)) (name : String),
      getattribute fuel cls inst name = Except.error PyErr.RecursionError := by
  induction fuel with
  | zero => intro cls inst name; rfl
  | succ n ih =>
      intro cls inst name
      simp only [getattribute, ih]

/-- Every instance attribute write raises `RecursionError`: line 69
reads `self._READONLY` through the diverging `__getattribute__`. -/
theorem pySetattr_diverges (fuel : Nat) (cls : PyClass) (inst : Option (List Nat))
    (name : String) (value : PyAttr) :
    pySetattr fuel cls inst name value = Except.error PyErr.RecursionError := by
  cases fuel with
  | zero => rfl
  | succ n => simp only [pySetattr, getattribute_diverges]

/-- The checksum method raises `RecursionError` on every call: line 30
reads `self._ID` through the diverging `__getattribute__`. -/
theorem calcChecksumsFuel_diverges (fuel : Nat) (cls : PyClass)
    (inst : Option (List Nat)) :
    calcChecksumsFuel fuel cls inst = Except.error PyErr.RecursionError := by
  cases fuel with
  | zero => rfl
  | succ n => simp only [calcChecksumsFuel, getattribute_diverges]

/-- Serialization raises `RecursionError` on every call: the line 94
fetch of `self.calc_checksums` goes through the diverging
`__getattribute__`. -/
theorem serializeFuel_diverges (fuel : Nat) (cls : PyClass)
    (inst : Option (List Nat)) :
    serializeFuel fuel cls inst = Except.error PyErr.RecursionError := by
  cases fuel with
  | zero => rfl
  | succ n => simp only [serializeFuel, getattribute_diverges]

/-- The rotor calibration getter raises `RecursionError` on every call:
its `super().__getattribute__(name)` enters the diverging base-class
method. -/
theorem rfcGetattribute_diverges (fuel : Nat) (cls : PyClass)
    (inst : Option (List Nat)) (name : String) :
    rfcGetattribute fuel cls inst name = Except.error PyErr.RecursionError := by
  cases fuel with
  | zero => rfl
  | succ n => simp only [rfcGetattribute, getattribute_diverges]

/-- Every block construction raises `RecursionError` — line 10 assigns
`self.payload` through the diverging `__setattr__` — and leaves the
class-level `_PARAMETERS` dictionary exactly as it was. -/
theorem configBlockInitFuel_diverges (fuel : Nat) (cls : PyClass) (payload : List Nat) :
    configBlockInitFuel fuel cls payload
      = (Except.error PyErr.RecursionError, cls.params) := by
  cases fuel with
  | zero => rfl
  | succ n => simp only [configBlockInitFuel, pySetattr_diverges]

/-- Claim C1: false of the program — the field getter never reads any
bytes at all.  For every block variant, every attribute name (in
particular every schema field name), every instance state and every
recursion budget, the get raises `RecursionError`: line 44 evaluates
`self._PARAMETERS`, an instance read dispatched back through
`__getattribute__` itself.  (Even the unreachable body is off the
claim: the line 47 slice takes `width + 1` bytes.) -/
theorem claim_C1_bug (fuel : Nat) (v : Variant) (inst : Option (List Nat))
    (name : String) :
    getattribute fuel (variantClass v) inst name = Except.error PyErr.RecursionError :=
  getattribute_diverges fuel (variantClass v) inst name

/-- Claim C2: false of the program — `serialize` never returns 32
bytes.  For every variant, instance state and recursion budget the call
raises `RecursionError` at the line 94 fetch of `self.calc_checksums`;
the malformed line 95 packet and its `TypeError` are dead code behind
it. -/
theorem claim_C2_bug (fuel : Nat) (v : Variant) (inst : Option (List Nat)) :
    serializeFuel fuel (variantClass v) inst = Except.error PyErr.RecursionError :=
  serializeFuel_diverges fuel (variantClass v) inst

/-- Claim C3 counterexample: at the CPython default recursion limit the
checksum computation for id `0x10` raises `RecursionError` instead of
returning any pair; and the accumulator loop the method contains, run
on id `0x10` and 27 zero bytes, does not yield the claimed weighted
checksum `0x0010` either. -/
theorem claim_C3_counterexample :
    calcChecksumsFuel 1000 (variantClass Variant.STATOR_HEADER) (some defaultPayload)
        = Except.error PyErr.RecursionError
    ∧ checksumLoop 0x10 defaultPayload ≠ ([0x00, 0x10], [0x00, 0x10]) :=
  ⟨calcChecksumsFuel_diverges 1000 (variantClass Variant.STATOR_HEADER)
      (some defaultPayload),
   by decide⟩

/-- Claim C3 amended: for id `0x10` and 27 zero payload bytes the
checksum method never returns a pair — every call raises
`RecursionError` at the line 30 attribute reads — and the accumulator
loop it contains (lines 31-41), applied to those inputs, yields
checksum `0x0010` and weighted checksum `0x01C0`: the checksum stays
`0x10` after the first byte and is added into the weighted accumulator
on each of the 28 iterations, `28 * 0x10 = 0x1C0`. -/
theorem claim_C3_amended :
    (∀ (fuel : Nat) (inst : Option (List Nat)),
        calcChecksumsFuel fuel (variantClass Variant.STATOR_HEADER) inst
          = Except.error PyErr.RecursionError)
    ∧ checksumLoop 0x10 defaultPayload = ([0x00, 0x10], [0x01, 0xC0]) :=
  ⟨fun fuel inst =>
      calcChecksumsFuel_diverges fuel (variantClass Variant.STATOR_HEADER) inst,
   by decide⟩

/-- Claim C4: the method contradicts its own docstring ("Returns: the
checksum and weighted checksum") — for every recursion budget, class
and instance state it raises `RecursionError` at the line 30 reads and
never returns the accumulator pair; the loop it contains matches the
claimed per-byte update exactly: fold over the id byte followed by the
payload from `(0, 0)`, `checksum = (checksum + b) mod 65536` then
`wchecksum = (wchecksum + checksum) mod 65536`, each rendered as a
two-byte big-endian value. -/
theorem claim_C4_bug :
    (∀ (fuel : Nat) (cls : PyClass) (inst : Option (List Nat)),
        calcChecksumsFuel fuel cls inst = Except.error PyErr.RecursionError)
    ∧ (∀ (i : Nat) (payload : List Nat),
        checksumLoop i payload
          = (toBytes2 (specChecksums i payload).1, toBytes2 (specChecksums i payload).2)) := by
  constructor
  · intro fuel cls inst
    exact calcChecksumsFuel_diverges fuel cls inst
  · intro i payload
    unfold checksumLoop specChecksums
    rw [checksumStep_eq_specStep]

/-- Claim C5: false of the program — constructing the configuration
bundle never succeeds.  `Config.__init__` first constructs
`STATOR_HARDWARE`, whose `self.payload = payload` goes through
`__setattr__`; its line 69 read of `self._READONLY` re-enters
`__getattribute__` unboundedly, so for every recursion budget the
construction raises `RecursionError` (mutable variants would fail the
same way; the read-only raise of line 70 is dead code). -/
theorem claim_C5_bug (fuel : Nat) :
    configInitFuel fuel = Except.error PyErr.RecursionError := by
  simp only [configInitFuel, List.foldl_cons, List.foldl_nil,
    configBlockInitFuel_diverges]

/-- Claim C6: the buffer is indeed never modified, but the failure is
not the claimed `ReadOnlyBlock`: for every variant (read-only ones
included), every name, value, instance state and recursion budget, the
set raises `RecursionError` — line 69 never finishes evaluating
`self._READONLY`, so the line 70 read-only raise is unreachable. -/
theorem claim_C6_bug (fuel : Nat) (v : Variant) (inst : Option (List Nat))
    (name : String) (value : PyAttr) :
    pySetattr fuel (variantClass v) inst name value
      = Except.error PyErr.RecursionError :=
  pySetattr_diverges fuel (variantClass v) inst name value

/-- Claim C7: false of the program — setting a lookup-table field of
the mutable `STATOR_OPERATION` block never reaches the reverse lookup.
For every recursion budget and instance state, setting `output_A` to
the string `SPEED` raises `RecursionError` at line 69; the line 79
guard (which, being a membership test of the string `LUT` among the
integer table keys, could never select the reverse-lookup branch
anyway) and the `UnknownValue` path are unreachable. -/
theorem claim_C7_bug (fuel : Nat) (inst : Option (List Nat)) :
    pySetattr fuel (variantClass Variant.STATOR_OPERATION) inst "output_A"
        (PyAttr.val (PyVal.pyStr "SPEED"))
      = Except.error PyErr.RecursionError :=
  pySetattr_diverges fuel (variantClass Variant.STATOR_OPERATION) inst "output_A"
    (PyAttr.val (PyVal.pyStr "SPEED"))

/-- Claim C8: false of the program — get does fail, for every raw code.
Reading `pulse_pr_rev` on `STATOR_HARDWARE` raises `RecursionError` at
line 44 for every recursion budget and instance state, so the lookup
and its raw-integer `KeyError` fallback (lines 57-63) never run and no
pass-through value is ever returned. -/
theorem claim_C8_bug (fuel : Nat) (inst : Option (List Nat)) :
    getattribute fuel (variantClass Variant.STATOR_HARDWARE) inst "pulse_pr_rev"
      = Except.error PyErr.RecursionError :=
  getattribute_diverges fuel (variantClass Variant.STATOR_HARDWARE) inst "pulse_pr_rev"

/-- Claim C9: false of the program — the uncertainty fields are never
scaled, because the rotor calibration getter never returns at all: its
`super().__getattribute__` call enters the diverging base method, so
for every class, recursion budget and instance state reading
`uncertainty_A` raises `RecursionError`.  The scaling arm is doubly
dead: even if the body were reached, the sequence pattern of line 252
never matches a string subject. -/
theorem claim_C9_bug (fuel : Nat) (cls : PyClass) (inst : Option (List Nat)) :
    rfcGetattribute fuel cls inst "uncertainty_A"
      = Except.error PyErr.RecursionError :=
  rfcGetattribute_diverges fuel cls inst "uncertainty_A"

/-- Claim C10: the block schemas are indeed never mutated — for every
recursion budget, class state and payload, a construction attempt
leaves the `_PARAMETERS` dictionary exactly as it was, because line 10
raises before the item assignments of lines 12-18 (and each of those
would itself raise on its `self._PARAMETERS` read before assigning);
no other operation of the codec contains a schema assignment at all. -/
theorem claim_C10 (fuel : Nat) (cls : PyClass) (payload : List Nat) :
    (configBlockInitFuel fuel cls payload).2 = cls.params := by
  rw [configBlockInitFuel_diverges]

end LorenzTelegram
